import Mathlib

/-!
Verification of the bank-churn service core: the drift-detection pipeline
(`app/drift_detect.py`) and the prediction scorer and drift aggregator
(`app/models.py`), shallowly embedded over exact rational arithmetic.
-/

namespace BankChurn

/-! ## Python-style decimal rounding

`round(x, n)` in Python rounds to `n` decimal places, ties to even. -/

/-- Round a rational to the nearest integer, ties to the even integer. -/
def roundHalfToEven (q : ℚ) : ℤ :=
  let f := ⌊q⌋
  let r := q - (f : ℚ)
  if r < 1/2 then f
  else if 1/2 < r then f + 1
  else if f % 2 = 0 then f else f + 1

/-- Python `round(q, ndigits)`: round to `ndigits` decimal places, ties to even. -/
def pyRound (q : ℚ) (ndigits : ℕ) : ℚ :=
  (roundHalfToEven (q * (10 : ℚ) ^ ndigits) : ℚ) / (10 : ℚ) ^ ndigits

/-! ## Prediction scorer (`app/models.py`, `predict` / `predict_batch`)

The classifier artifact is opaque to the service: it is loaded from disk and
only queried through `predict_proba`, which yields the class-1 probability for
a ten-component feature vector.  We model it as a function from the feature
vector to that probability. -/

/-- The ten-field request schema `CustomerFeatures`. -/
structure CustomerFeatures where
  CreditScore : ℚ
  Age : ℚ
  Tenure : ℚ
  Balance : ℚ
  NumOfProducts : ℚ
  HasCrCard : ℚ
  IsActiveMember : ℚ
  EstimatedSalary : ℚ
  Geography_Germany : ℚ
  Geography_Spain : ℚ
deriving DecidableEq

/-- An opaque trained classifier: feature vector to class-1 probability. -/
abbrev Model := List ℚ → ℚ

/-- The fixed-order input row built in `predict` and `predict_batch`. -/
def inputData (f : CustomerFeatures) : List ℚ :=
  [f.CreditScore, f.Age, f.Tenure, f.Balance, f.NumOfProducts, f.HasCrCard,
   f.IsActiveMember, f.EstimatedSalary, f.Geography_Germany, f.Geography_Spain]

/-- `float(model.predict_proba(input_data)[0][1])`. -/
def predict_proba (m : Model) (f : CustomerFeatures) : ℚ :=
  m (inputData f)

/-- The response dict of the `/predict` endpoint. -/
structure PredictionResponse where
  churn_probability : ℚ
  prediction : ℕ
  risk_level : String
deriving DecidableEq

/-- The `/predict` endpoint body after the model-availability check
(`app/models.py` lines 119-152). -/
def predict (m : Model) (features : CustomerFeatures) : PredictionResponse :=
  let proba := predict_proba m features
  let prediction : ℕ := if proba > 1/2 then 1 else 0
  let risk := if proba < 3/10 then "Low" else if proba < 7/10 then "Medium" else "High"
  { churn_probability := pyRound proba 4
    prediction := prediction
    risk_level := risk }

/-- One element of the `predictions` list built by `/predict/batch`: the dict
appended per item carries only `churn_probability` and `prediction`. -/
structure BatchItem where
  churn_probability : ℚ
  prediction : ℕ
deriving DecidableEq

/-- The response dict of the `/predict/batch` endpoint. -/
structure BatchResponse where
  predictions : List BatchItem
  count : ℕ
deriving DecidableEq

/-- The per-item body of the loop in `/predict/batch`
(`app/models.py` lines 171-191). -/
def batchScoreOne (m : Model) (features : CustomerFeatures) : BatchItem :=
  let proba := predict_proba m features
  { churn_probability := pyRound proba 4
    prediction := if proba > 1/2 then 1 else 0 }

/-- The `/predict/batch` endpoint body after the model-availability check. -/
def predict_batch (m : Model) (features_list : List CustomerFeatures) : BatchResponse :=
  let predictions := features_list.map (batchScoreOne m)
  { predictions := predictions, count := predictions.length }

/-! JSON-level view of the response dicts, used to compare the single-item
response with a batch item as the Python dicts they are. -/

/-- A scalar JSON value as it appears in the response dicts. -/
inductive JVal where
  | num (q : ℚ)
  | int (n : ℕ)
  | str (s : String)
deriving DecidableEq

/-- The `/predict` response as the key-value dict the code returns. -/
def predictJson (r : PredictionResponse) : List (String × JVal) :=
  [("churn_probability", .num r.churn_probability),
   ("prediction", .int r.prediction),
   ("risk_level", .str r.risk_level)]

/-- A batch item as the key-value dict the code appends to `predictions`. -/
def batchItemJson (b : BatchItem) : List (String × JVal) :=
  [("churn_probability", .num b.churn_probability),
   ("prediction", .int b.prediction)]

/-! ## Distribution Comparator

Modelled from the spec: the Distribution Comparator (`scipy.stats.ks_2samp`,
external to the repository sources) computes the two-sample
Kolmogorov-Smirnov statistic, the maximum absolute difference between the two
empirical cumulative distribution functions, and a p-value for it under the
null hypothesis of equal distributions.  For small samples the library
derives the p-value from the exact null distribution of the statistic: the
proportion of equal-size relabelings of the pooled sample whose statistic is
at least the observed one. -/

/-- Empirical CDF of a sample at `x`: the fraction of values `≤ x`. -/
def ecdfLE (s : List ℚ) (x : ℚ) : ℚ :=
  ((s.countP fun v => decide (v ≤ x)) : ℚ) / (s.length : ℚ)

/-- Two-sample KS statistic: maximum absolute ECDF difference over the pooled
sample points. -/
def ksStat (s1 s2 : List ℚ) : ℚ :=
  (((s1 ++ s2).map fun x => |ecdfLE s1 x - ecdfLE s2 x|).foldr max 0)

/-- Split the pooled sample by a set of positions: values at positions in
`idxs` form the first sample, the rest the second. -/
def maskSplit (pooled : List ℚ) (idxs : List ℕ) : List ℚ × List ℚ :=
  (((pooled.enum.filter fun p => decide (p.1 ∈ idxs)).map Prod.snd),
   ((pooled.enum.filter fun p => decide (p.1 ∉ idxs)).map Prod.snd))

/-- Exact null tail probability of the two-sample KS statistic: the fraction
of size-preserving relabelings of the pooled sample whose statistic is at
least `d`. -/
def exactKsPValue (s1 s2 : List ℚ) (d : ℚ) : ℚ :=
  let pooled := s1 ++ s2
  let splits := (List.range pooled.length).sublistsLen s1.length
  ((splits.countP fun idxs =>
      let ab := maskSplit pooled idxs
      decide (d ≤ ksStat ab.1 ab.2)) : ℚ) / (splits.length : ℚ)

/-- The Distribution Comparator: statistic and p-value. -/
def ks_2samp (s1 s2 : List ℚ) : ℚ × ℚ :=
  (ksStat s1 s2, exactKsPValue s1 s2 (ksStat s1 s2))

/-! ## Per-Feature Drift Evaluator (`app/drift_detect.py`, `detect_drift`) -/

/-- A column of a loaded CSV table: pandas assigns each column one dtype, so a
column is either numeric (with per-cell missing values) or non-numeric. -/
inductive ColData where
  | numeric (vals : List (Option ℚ))
  | categorical (vals : List String)
deriving DecidableEq

/-- A loaded CSV table: named columns in file order. -/
structure Table where
  cols : List (String × ColData)
deriving DecidableEq

/-- The column names of a table, in order. -/
def colNames (t : Table) : List String :=
  t.cols.map Prod.fst

/-- Column lookup by name (column names of a loaded CSV are unique). -/
def getCol (t : Table) (name : String) : ColData :=
  (((t.cols.find? fun c => decide (c.1 = name)).map Prod.snd).getD (.categorical []))

/-- `series.dropna()`: the non-missing values of a numeric column. -/
def dropna (vals : List (Option ℚ)) : List ℚ :=
  vals.filterMap id

/-- The numeric cells of a column; a non-numeric column contributes none.
(The dispatch in `detect_drift` tests only the reference dtype, so a column
numeric in the reference but not in production is outside the modelled
domain; theorems about numeric verdicts assume both sides numeric.) -/
def numericValues : ColData → List (Option ℚ)
  | .numeric vs => vs
  | .categorical _ => []

/-- A per-feature verdict: the dict stored in `results[feature]`.  Numeric
columns carry `p_value` and `statistic`; skipped categorical columns omit
them. -/
structure Verdict where
  drift_detected : Bool
  p_value : Option ℚ
  statistic : Option ℚ
  type : String
deriving DecidableEq

/-- A two-sample comparator, as the evaluator consumes it. -/
abbrev Comparator := List ℚ → List ℚ → ℚ × ℚ

/-- The per-column dispatch of `detect_drift` (lines 26-42), parameterised by
the comparator so that its use can be reasoned about. -/
def featureVerdictWith (compare : Comparator) (ref_df prod_df : Table)
    (threshold : ℚ) (feature : String) : Verdict :=
  match getCol ref_df feature with
  | .numeric refVals =>
      let res := compare (dropna refVals) (dropna (numericValues (getCol prod_df feature)))
      { drift_detected := decide (res.2 < threshold)
        p_value := some res.2
        statistic := some res.1
        type := "kolmogorov-smirnov" }
  | .categorical _ =>
      { drift_detected := false
        p_value := none
        statistic := none
        type := "categorical_skipped" }

/-- `detect_drift`, parameterised by the comparator.  The filesystem is a map
from path to the table the file parses to (`none`: no such file).  The
reference file is checked first; a missing production file short-circuits to
an empty report. -/
def detectDriftWith (compare : Comparator) (fs : String → Option Table)
    (reference_file production_file : String) (threshold : ℚ) :
    Except String (List (String × Verdict)) :=
  match fs reference_file with
  | none => .error ("Référence non trouvée: " ++ reference_file)
  | some ref_df =>
    match fs production_file with
    | none => .ok []
    | some prod_df =>
      let features := (colNames ref_df).filter fun c => decide (c ∈ colNames prod_df)
      .ok (features.map fun feature =>
        (feature, featureVerdictWith compare ref_df prod_df threshold feature))

/-- `detect_drift` as shipped: the dispatch applied with the KS comparator. -/
def detect_drift (fs : String → Option Table)
    (reference_file production_file : String) (threshold : ℚ) :
    Except String (List (String × Verdict)) :=
  detectDriftWith ks_2samp fs reference_file production_file threshold

/-! ## Drift Aggregator (`app/models.py`, `log_drift_to_insights`) -/

/-- The summary payload logged by `log_drift_to_insights`. -/
structure DriftSummary where
  features_analyzed : ℕ
  features_drifted : ℕ
  drift_percentage : ℚ
  risk_level : String
deriving DecidableEq

/-- The pure computation of `log_drift_to_insights` (lines 220-224): feature
counts, drift percentage rounded to 2 decimal places (0 for an empty report),
and the three-tier risk level. -/
def log_drift_to_insights (drift_results : List (String × Verdict)) : DriftSummary :=
  let total := drift_results.length
  let drifted := drift_results.countP fun r => r.2.drift_detected
  let percentage := if total = 0 then 0 else pyRound (((drifted : ℚ) / (total : ℚ)) * 100) 2
  let risk := if percentage < 20 then "LOW" else if percentage < 50 then "MEDIUM" else "HIGH"
  { features_analyzed := total
    features_drifted := drifted
    drift_percentage := percentage
    risk_level := risk }

/-! ## Basic lemmas about the comparator -/

lemma foldr_max_nonneg (l : List ℚ) : 0 ≤ l.foldr max 0 := by
  induction l with
  | nil => exact le_refl 0
  | cons x xs ih => exact le_trans ih (le_max_right x _)

lemma ksStat_nonneg (s1 s2 : List ℚ) : 0 ≤ ksStat s1 s2 :=
  foldr_max_nonneg _

lemma foldr_max_replicate_zero (n : ℕ) :
    (List.replicate n (0 : ℚ)).foldr max 0 = 0 := by
  induction n with
  | zero => rfl
  | succ k ih => simp [List.replicate_succ, ih]

lemma ksStat_self (s : List ℚ) : ksStat s s = 0 := by
  unfold ksStat
  have h : ((s ++ s).map fun x => |ecdfLE s x - ecdfLE s x|) =
      List.replicate (s ++ s).length (0 : ℚ) := by
    simp [sub_self]
  rw [h, foldr_max_replicate_zero]

lemma exactKsPValue_of_nonpos (s1 s2 : List ℚ) (d : ℚ) (hd : d ≤ 0) :
    exactKsPValue s1 s2 d = 1 := by
  unfold exactKsPValue
  dsimp only
  have hall : ∀ idxs ∈ (List.range (s1 ++ s2).length).sublistsLen s1.length,
      (fun idxs =>
        let ab := maskSplit (s1 ++ s2) idxs
        decide (d ≤ ksStat ab.1 ab.2)) idxs = true := by
    intro idxs _
    exact decide_eq_true (le_trans hd (ksStat_nonneg _ _))
  rw [List.countP_eq_length.mpr hall]
  have hpos : 0 < ((List.range (s1 ++ s2).length).sublistsLen s1.length).length := by
    rw [List.length_sublistsLen]
    exact Nat.choose_pos (by simp [List.length_append])
  exact div_self (by exact_mod_cast Nat.pos_iff_ne_zero.mp hpos)

lemma ks_2samp_self (s : List ℚ) : ks_2samp s s = (0, 1) := by
  unfold ks_2samp
  rw [ksStat_self, exactKsPValue_of_nonpos s s 0 le_rfl]

/-! ## Claim theorems -/

/-- C9: comparing a non-empty numeric sample with an identical copy of itself
through the Distribution Comparator yields statistic 0 and p-value 1, so no
drift is detected between a sample and itself at any threshold in (0,1). -/
theorem ks_identical_sample_no_drift (s : List ℚ) (_hs : s ≠ []) :
    ks_2samp s s = (0, 1) ∧
    ∀ t : ℚ, 0 < t → t < 1 → ¬((ks_2samp s s).2 < t) := by
  refine ⟨ks_2samp_self s, ?_⟩
  intro t _ ht1
  rw [ks_2samp_self s]
  dsimp only
  intro h
  exact absurd (lt_trans h ht1) (by norm_num)

/-- C9 witness: at the concrete sample `[1]` and threshold `1/2`. -/
theorem ks_identical_sample_no_drift_witness :
    ks_2samp [(1 : ℚ)] [(1 : ℚ)] = (0, 1) ∧
    ¬((ks_2samp [(1 : ℚ)] [(1 : ℚ)]).2 < 1/2) :=
  ⟨(ks_identical_sample_no_drift [(1 : ℚ)] (by simp)).1,
   (ks_identical_sample_no_drift [(1 : ℚ)] (by simp)).2 (1/2) (by norm_num) (by norm_num)⟩

/-- C2: in a DriftSummary derived from a DriftReport, the risk level is LOW
exactly when the drift percentage is below 20, MEDIUM exactly on [20, 50),
and HIGH exactly from 50 up; each boundary belongs to the upper band. -/
theorem drift_risk_bands (report : List (String × Verdict)) :
    ((log_drift_to_insights report).risk_level = "LOW" ↔
      (log_drift_to_insights report).drift_percentage < 20) ∧
    ((log_drift_to_insights report).risk_level = "MEDIUM" ↔
      20 ≤ (log_drift_to_insights report).drift_percentage ∧
      (log_drift_to_insights report).drift_percentage < 50) ∧
    ((log_drift_to_insights report).risk_level = "HIGH" ↔
      50 ≤ (log_drift_to_insights report).drift_percentage) := by
  unfold log_drift_to_insights
  dsimp only
  set p : ℚ := if report.length = 0 then 0
    else pyRound (((report.countP fun r => r.2.drift_detected : ℚ) / (report.length : ℚ)) * 100) 2 with hp
  clear_value p
  have hLM : ("LOW" : String) ≠ "MEDIUM" := by decide
  have hLH : ("LOW" : String) ≠ "HIGH" := by decide
  have hMH : ("MEDIUM" : String) ≠ "HIGH" := by decide
  split_ifs with h1 h2
  · exact ⟨by simp [h1], by simp [hLM.symm ∘ Eq.symm]; intro h; linarith,
      by simp [hLH.symm ∘ Eq.symm]; linarith⟩
  · exact ⟨by simp [hLM]; linarith, by simp [le_of_not_lt h1, h2],
      by simp [hMH.symm ∘ Eq.symm]; linarith⟩
  · exact ⟨by simp [hLH]; linarith, by simp [hMH]; intro h; linarith,
      by simp [le_of_not_lt h2]⟩

/-- C4: the binary prediction of the scorer is 1 exactly when the class-1
probability is strictly greater than 0.5 (0.5 itself gives 0), and the risk
level is Low below 0.3, Medium on [0.3, 0.7), High from 0.7 up. -/
theorem predict_probability_bands (m : Model) (f : CustomerFeatures) :
    ((predict m f).prediction = 1 ↔ 1/2 < predict_proba m f) ∧
    ((predict m f).prediction = 0 ↔ ¬(1/2 < predict_proba m f)) ∧
    ((predict m f).risk_level = "Low" ↔ predict_proba m f < 3/10) ∧
    ((predict m f).risk_level = "Medium" ↔
      3/10 ≤ predict_proba m f ∧ predict_proba m f < 7/10) ∧
    ((predict m f).risk_level = "High" ↔ 7/10 ≤ predict_proba m f) := by
  unfold predict
  dsimp only
  set p : ℚ := predict_proba m f with hp
  clear_value p
  have hLM : ("Low" : String) ≠ "Medium" := by decide
  have hLH : ("Low" : String) ≠ "High" := by decide
  have hMH : ("Medium" : String) ≠ "High" := by decide
  constructor
  · split_ifs with h
    · simpa using h
    · simpa using le_of_not_lt h
  constructor
  · split_ifs with h
    · simpa using h
    · simpa using le_of_not_lt h
  split_ifs with h1 h2
  · exact ⟨by simp [h1], by simp [hLM.symm ∘ Eq.symm]; intro h; linarith,
      by simp [hLH.symm ∘ Eq.symm]; linarith⟩
  · exact ⟨by simp [hLM]; linarith, by simp [le_of_not_lt h1, h2],
      by simp [hMH.symm ∘ Eq.symm]; linarith⟩
  · exact ⟨by simp [hLH]; linarith, by simp [hMH]; intro h; linarith,
      by simp [le_of_not_lt h2]⟩

/-- C5: the aggregated drift percentage is 100 × drifted / analyzed rounded
to 2 decimal places, 0 when no features were analyzed, and the empty report
summarises to all-zero counts with risk LOW. -/
theorem drift_percentage_formula (report : List (String × Verdict)) :
    (log_drift_to_insights report).features_analyzed = report.length ∧
    (log_drift_to_insights report).features_drifted =
      report.countP (fun r => r.2.drift_detected) ∧
    (log_drift_to_insights report).drift_percentage =
      (if (log_drift_to_insights report).features_analyzed = 0 then 0
       else pyRound
         (100 * ((log_drift_to_insights report).features_drifted : ℚ) /
           ((log_drift_to_insights report).features_analyzed : ℚ)) 2) ∧
    log_drift_to_insights [] = ⟨0, 0, 0, "LOW"⟩ := by
  unfold log_drift_to_insights
  dsimp only
  refine ⟨rfl, rfl, ?_, ?_⟩
  · split_ifs with h
    · rfl
    · congr 1
      ring
  · norm_num

/-! Concrete instances used by the witnesses and the counterexample. -/

/-- A constant classifier returning class-1 probability 0.6. -/
def cexModel : Model := fun _ => 6/10

/-- The example customer record from the request schema documentation. -/
def cexFeatures : CustomerFeatures :=
  ⟨650, 35, 5, 50000, 2, 1, 1, 75000, 0, 1⟩

/-- A constant classifier returning class-1 probability 0.50004. -/
def c10Model : Model := fun _ => 50004/100000

/-- A one-column numeric table. -/
def wNumTable : Table := ⟨[("f", ColData.numeric [some 0])]⟩

/-- A filesystem carrying identical reference and production tables. -/
def wNumFs : String → Option Table :=
  fun p => if p = "ref.csv" then some wNumTable else
    if p = "prod.csv" then some wNumTable else none

/-- A filesystem carrying only the reference table. -/
def wRefOnlyFs : String → Option Table :=
  fun p => if p = "ref.csv" then some wNumTable else none

/-- A reference table with columns `a` (numeric) and `b` (categorical). -/
def wRefTable : Table :=
  ⟨[("a", ColData.numeric [some 0]), ("b", ColData.categorical ["x"])]⟩

/-- A production table with columns `b` (categorical) and `c` (numeric). -/
def wProdTable : Table :=
  ⟨[("b", ColData.categorical ["y"]), ("c", ColData.numeric [some 1])]⟩

/-- A filesystem carrying `wRefTable` and `wProdTable`. -/
def wRefProdFs : String → Option Table :=
  fun p => if p = "ref.csv" then some wRefTable else
    if p = "prod.csv" then some wProdTable else none

/-- A comparator that claims drift everywhere, to exhibit that categorical
columns never consult the comparator. -/
def sillyCompare : Comparator := fun _ _ => (9, 9)

/-- A one-column categorical reference table. -/
def wCatRefTable : Table := ⟨[("g", ColData.categorical ["x", "y"])]⟩

/-- A categorical production table with values disjoint from the reference. -/
def wCatProdTable : Table :=
  ⟨[("g", ColData.categorical ["completely", "different"])]⟩

/-- A filesystem carrying the two categorical tables. -/
def wCatFs : String → Option Table :=
  fun p => if p = "ref.csv" then some wCatRefTable else
    if p = "prod.csv" then some wCatProdTable else none

/-- C1 counterexample: with a constant-0.6 classifier and one input, the
batch item dict (two keys) differs from the single-scoring response dict
(three keys, including risk_level), so a batch result does not equal the
result of scoring the same vector individually. -/
theorem batch_item_ne_single_response :
    ((predict_batch cexModel [cexFeatures]).predictions.map batchItemJson) ≠
      [predictJson (predict cexModel cexFeatures)] := by
  intro h
  have h2 := congrArg (fun x => (x.headD []).length) h
  simp [predict_batch, batchScoreOne, predict, batchItemJson, predictJson] at h2

/-- C1 amended: batch scoring of N vectors returns N results in input order,
and each agrees with the individual scoring of that vector on
churn_probability and prediction (the batch item omits the risk_level field
that the single-item response carries). -/
theorem batch_scoring_pointwise (m : Model) (l : List CustomerFeatures) :
    (predict_batch m l).count = l.length ∧
    (predict_batch m l).predictions =
      l.map (fun f =>
        ({ churn_probability := (predict m f).churn_probability,
           prediction := (predict m f).prediction } : BatchItem)) := by
  unfold predict_batch
  refine ⟨by simp, ?_⟩
  rfl

/-- C10: in every successful scoring call, single or batch item, the
churn_probability of the returned dict is the class-1 probability rounded to
4 decimal places while prediction (and, for the single call, risk level) is
computed from the unrounded probability; at probability 0.50004 both the
single response and the batch item carry churn_probability 0.5 together
with prediction 1. -/
theorem churn_probability_rounded :
    (∀ (m : Model) (f : CustomerFeatures),
      (predict m f).churn_probability = pyRound (predict_proba m f) 4 ∧
      (predict m f).prediction = (if 1/2 < predict_proba m f then 1 else 0) ∧
      (predict m f).risk_level =
        (if predict_proba m f < 3/10 then "Low"
         else if predict_proba m f < 7/10 then "Medium" else "High")) ∧
    (∀ (m : Model) (f : CustomerFeatures),
      (batchScoreOne m f).churn_probability = pyRound (predict_proba m f) 4 ∧
      (batchScoreOne m f).prediction = (if 1/2 < predict_proba m f then 1 else 0)) ∧
    (∀ (m : Model) (l : List CustomerFeatures),
      (predict_batch m l).predictions = l.map (batchScoreOne m)) ∧
    (predict c10Model cexFeatures).churn_probability = 1/2 ∧
    (predict c10Model cexFeatures).prediction = 1 ∧
    (batchScoreOne c10Model cexFeatures).churn_probability = 1/2 ∧
    (batchScoreOne c10Model cexFeatures).prediction = 1 := by
  refine ⟨fun m f => ⟨rfl, rfl, rfl⟩, fun m f => ⟨rfl, rfl⟩, fun m l => rfl, ?_, ?_, ?_, ?_⟩
  · norm_num [predict, predict_proba, pyRound, roundHalfToEven, c10Model, cexFeatures, inputData]
  · norm_num [predict, predict_proba, c10Model, cexFeatures, inputData]
  · norm_num [batchScoreOne, predict_proba, pyRound, roundHalfToEven, c10Model, cexFeatures, inputData]
  · norm_num [batchScoreOne, predict_proba, c10Model, cexFeatures, inputData]

/-- C3: every numeric-feature verdict the drift evaluator produces has
drift_detected exactly when its p-value is strictly below the threshold. -/
theorem drift_detected_iff_p_below_threshold
    (fs : String → Option Table) (rf pf : String) (t : ℚ) (ref prod : Table)
    (report : List (String × Verdict)) (feature : String) (v : Verdict)
    (h1 : fs rf = some ref) (h2 : fs pf = some prod)
    (h3 : detect_drift fs rf pf t = .ok report)
    (h4 : (feature, v) ∈ report)
    (h5 : v.type = "kolmogorov-smirnov")
    (h6 : ∃ pv, getCol prod feature = .numeric pv) :
    ∃ p, v.p_value = some p ∧ ((v.drift_detected = true) ↔ p < t) := by
  unfold detect_drift detectDriftWith at h3
  rw [h1, h2] at h3
  simp only [Except.ok.injEq] at h3
  subst h3
  rcases List.mem_map.mp h4 with ⟨c, _, heq⟩
  simp only [Prod.mk.injEq] at heq
  obtain ⟨rfl, rfl⟩ := heq
  unfold featureVerdictWith at h5 ⊢
  cases hcol : getCol ref c with
  | numeric refVals =>
      dsimp only
      exact ⟨_, rfl, by simp⟩
  | categorical vals =>
      rw [hcol] at h5
      dsimp only at h5
      exact absurd h5 (by decide)

/-- C3 witness: a numeric feature compared against itself at threshold
1/20. -/
theorem drift_detected_iff_p_below_threshold_witness :
    ∃ p, (featureVerdictWith ks_2samp wNumTable wNumTable (1/20) "f").p_value = some p ∧
      (((featureVerdictWith ks_2samp wNumTable wNumTable (1/20) "f").drift_detected = true) ↔
        p < 1/20) :=
  drift_detected_iff_p_below_threshold wNumFs "ref.csv" "prod.csv" (1/20)
    wNumTable wNumTable
    [("f", featureVerdictWith ks_2samp wNumTable wNumTable (1/20) "f")] "f"
    (featureVerdictWith ks_2samp wNumTable wNumTable (1/20) "f")
    rfl rfl rfl (List.mem_singleton.mpr rfl) rfl ⟨[some 0], rfl⟩

/-- C6: the drift evaluator fails exactly when the reference dataset cannot
be located, with the reference-not-found message; when the reference exists
but the production dataset is absent it returns the empty report without
error. -/
theorem drift_reference_failure (fs : String → Option Table)
    (rf pf : String) (t : ℚ) :
    ((∃ e, detect_drift fs rf pf t = .error e) ↔ fs rf = none) ∧
    (fs rf = none →
      detect_drift fs rf pf t = .error ("Référence non trouvée: " ++ rf)) ∧
    (∀ ref, fs rf = some ref → fs pf = none →
      detect_drift fs rf pf t = .ok []) := by
  unfold detect_drift detectDriftWith
  refine ⟨?_, ?_, ?_⟩
  · cases h1 : fs rf with
    | none => simp
    | some ref =>
      cases h2 : fs pf with
      | none => simp
      | some prod => simp
  · intro h
    rw [h]
  · intro ref hr hp
    rw [hr, hp]

/-- C6 witness: a filesystem holding only the reference file. -/
theorem drift_reference_failure_witness :
    detect_drift wRefOnlyFs "ref.csv" "prod.csv" (1/20) = .ok [] ∧
    (∃ e, detect_drift wRefOnlyFs "absent.csv" "prod.csv" (1/20) = .error e) :=
  ⟨(drift_reference_failure wRefOnlyFs "ref.csv" "prod.csv" (1/20)).2.2
      wNumTable rfl rfl,
   (drift_reference_failure wRefOnlyFs "absent.csv" "prod.csv" (1/20)).1.mpr rfl⟩

/-- C7: the keys of the drift report are exactly the column names common to the
reference and production tables, in reference column order; a column present
on only one side never appears. -/
theorem drift_report_keys (fs : String → Option Table) (rf pf : String)
    (t : ℚ) (ref prod : Table) (report : List (String × Verdict))
    (h1 : fs rf = some ref) (h2 : fs pf = some prod)
    (h3 : detect_drift fs rf pf t = .ok report) :
    report.map Prod.fst =
      (colNames ref).filter (fun c => decide (c ∈ colNames prod)) ∧
    ∀ c, (c ∈ report.map Prod.fst ↔ c ∈ colNames ref ∧ c ∈ colNames prod) := by
  unfold detect_drift detectDriftWith at h3
  rw [h1, h2] at h3
  simp only [Except.ok.injEq] at h3
  subst h3
  constructor
  · simp [List.map_map, Function.comp_def]
  · intro c
    simp [List.map_map, Function.comp_def, List.mem_filter]

/-- C7 witness: tables with columns a, b and b, c give report keys [b]. -/
theorem drift_report_keys_witness :
    ([("b", featureVerdictWith ks_2samp wRefTable wProdTable (1/20) "b")].map Prod.fst =
      (colNames wRefTable).filter (fun c => decide (c ∈ colNames wProdTable))) ∧
    ∀ c, (c ∈ [("b", featureVerdictWith ks_2samp wRefTable wProdTable (1/20) "b")].map Prod.fst ↔
      c ∈ colNames wRefTable ∧ c ∈ colNames wProdTable) :=
  drift_report_keys wRefProdFs "ref.csv" "prod.csv" (1/20) wRefTable wProdTable
    [("b", featureVerdictWith ks_2samp wRefTable wProdTable (1/20) "b")]
    rfl rfl rfl

/-- C8: a common column that is non-numeric in the reference always yields
the categorical-skipped verdict with drift_detected false, for every
comparator; the Distribution Comparator is never consulted for it. -/
theorem drift_categorical_skipped (compare : Comparator)
    (fs : String → Option Table) (rf pf : String) (t : ℚ) (ref prod : Table)
    (report : List (String × Verdict)) (feature : String) (v : Verdict)
    (vals : List String)
    (h1 : fs rf = some ref) (h2 : fs pf = some prod)
    (h3 : detectDriftWith compare fs rf pf t = .ok report)
    (h4 : (feature, v) ∈ report)
    (h5 : getCol ref feature = .categorical vals) :
    v = ⟨false, none, none, "categorical_skipped"⟩ := by
  unfold detectDriftWith at h3
  rw [h1, h2] at h3
  simp only [Except.ok.injEq] at h3
  subst h3
  rcases List.mem_map.mp h4 with ⟨c, _, heq⟩
  simp only [Prod.mk.injEq] at heq
  obtain ⟨rfl, rfl⟩ := heq
  unfold featureVerdictWith
  rw [h5]

/-- C8 witness: a categorical column with disjoint value sets on the two
sides, under a comparator that reports drift everywhere. -/
theorem drift_categorical_skipped_witness :
    featureVerdictWith sillyCompare wCatRefTable wCatProdTable (1/20) "g" =
      ⟨false, none, none, "categorical_skipped"⟩ :=
  drift_categorical_skipped sillyCompare wCatFs "ref.csv" "prod.csv" (1/20)
    wCatRefTable wCatProdTable
    [("g", featureVerdictWith sillyCompare wCatRefTable wCatProdTable (1/20) "g")]
    "g" (featureVerdictWith sillyCompare wCatRefTable wCatProdTable (1/20) "g")
    ["x", "y"] rfl rfl rfl (List.mem_singleton.mpr rfl) rfl

end BankChurn
